import Mathlib

/-!
Shallow embedding of the status-resolution and cache-aside pipeline of
src/src/status.go (package main of the ping-server repository).

External collaborators (the mcutil protocol query clients, the cache store
r, json.Marshal, base64 StdEncoding decoding, IsBlockedAddress and the TTL
configuration) are modelled as parameters: each resolution function takes
the outcome of every external call it performs.  Go errors are opaque to
the pipeline, so query failures carry Unit; marshal, store and decode
errors carry a String so distinct errors can be told apart.  Go byte
slices are List Nat; time.Duration is Int; uint16 ports are Nat.

Each Get function returns the Go result triple together with the list of
cache writes it performed (key, value, ttl), so that claims about what
was or was not stored are statable.
-/

namespace PingServer

/-- Base response record: online flag, echoed host and port, EULA-block flag
(struct StatusResponse in status.go). -/
structure StatusResponse where
  Online : Bool
  Host : String
  Port : Nat
  EULABlocked : Bool
  deriving DecidableEq, Repr

/-- Version block of the Java (primary-family) response (struct JavaVersion). -/
structure JavaVersion where
  NameRaw : String
  NameClean : String
  NameHTML : String
  Protocol : Int
  deriving DecidableEq, Repr

/-- A sample player entry in the Java response (struct Player). -/
structure Player where
  UUID : String
  NameRaw : String
  NameClean : String
  NameHTML : String
  deriving DecidableEq, Repr

/-- Players block of the Java response (struct JavaPlayers). -/
structure JavaPlayers where
  Online : Int
  Max : Int
  List : List Player
  deriving DecidableEq, Repr

/-- Message-of-the-day triple (struct MOTD). -/
structure MOTD where
  Raw : String
  Clean : String
  HTML : String
  deriving DecidableEq, Repr

/-- A mod entry of the Java response (struct Mod in status.go). -/
structure Mod where
  Name : String
  Version : String
  deriving DecidableEq, Repr

/-- Full Java (primary-family) status response (struct JavaStatusResponse);
the embedded Go StatusResponse is the Status field here. -/
structure JavaStatusResponse where
  Status : StatusResponse
  Version : Option JavaVersion
  Players : JavaPlayers
  MOTD : MOTD
  Icon : Option String
  Mods : List Mod
  deriving DecidableEq, Repr

/-- Version block of the Bedrock (second-family) response, both fields
nullable (struct BedrockVersion). -/
structure BedrockVersion where
  Name : Option String
  Protocol : Option Int
  deriving DecidableEq, Repr

/-- Players block of the Bedrock response, both fields nullable
(struct BedrockPlayers). -/
structure BedrockPlayers where
  Online : Option Int
  Max : Option Int
  deriving DecidableEq, Repr

/-- Full Bedrock (second-family) status response (struct BedrockStatusResponse). -/
structure BedrockStatusResponse where
  Status : StatusResponse
  Version : Option BedrockVersion
  Players : Option BedrockPlayers
  MOTD : Option MOTD
  Gamemode : Option String
  ServerID : Option String
  Edition : Option String
  deriving DecidableEq, Repr

/-- Upstream modern-query version block, as read from mcutil
(status.Version.NameRaw etc.). -/
structure RawJavaVersion where
  NameRaw : String
  NameClean : String
  NameHTML : String
  Protocol : Int
  deriving DecidableEq, Repr

/-- Upstream MOTD triple as read from mcutil records. -/
structure RawMOTD where
  Raw : String
  Clean : String
  HTML : String
  deriving DecidableEq, Repr

/-- Upstream sample-player entry (player.ID, player.NameRaw, ...). -/
structure RawSamplePlayer where
  ID : String
  NameRaw : String
  NameClean : String
  NameHTML : String
  deriving DecidableEq, Repr

/-- Upstream modern-query players block; Sample is a nilable slice. -/
structure RawJavaPlayers where
  Online : Int
  Max : Int
  Sample : Option (List RawSamplePlayer)
  deriving DecidableEq, Repr

/-- Upstream mod entry (mod.ID, mod.Version). -/
structure RawMod where
  ID : String
  Version : String
  deriving DecidableEq, Repr

/-- Upstream mod-info block; the record is nilable, its Mods slice is ranged over. -/
structure RawModInfo where
  Mods : List RawMod
  deriving DecidableEq, Repr

/-- Upstream record of mcutil.Status (modern primary-family query):
the fields status.go reads. -/
structure RawJavaStatus where
  Version : RawJavaVersion
  Players : RawJavaPlayers
  MOTD : RawMOTD
  Favicon : Option String
  ModInfo : Option RawModInfo
  deriving DecidableEq, Repr

/-- Upstream players block of mcutil.StatusLegacy. -/
structure RawLegacyPlayers where
  Online : Int
  Max : Int
  deriving DecidableEq, Repr

/-- Upstream record of mcutil.StatusLegacy (legacy fallback query);
Version is a nilable pointer. -/
structure RawLegacyStatus where
  Version : Option RawJavaVersion
  Players : RawLegacyPlayers
  MOTD : RawMOTD
  deriving DecidableEq, Repr

/-- Upstream record of mcutil.StatusBedrock; every field read by
status.go is a nilable pointer. -/
structure RawBedrockStatus where
  ServerID : Option String
  Edition : Option String
  MOTD : Option RawMOTD
  ProtocolVersion : Option Int
  Version : Option String
  Gamemode : Option String
  OnlinePlayers : Option Int
  MaxPlayers : Option Int
  deriving DecidableEq, Repr

/-- FetchJavaStatus returns interface-typed data: either the bare offline
StatusResponse or a full JavaStatusResponse. -/
inductive JavaFetchResult where
  | offline (r : StatusResponse)
  | online (r : JavaStatusResponse)
  deriving DecidableEq, Repr

/-- FetchBedrockStatus returns interface-typed data: either the bare offline
StatusResponse or a full BedrockStatusResponse. -/
inductive BedrockFetchResult where
  | offline (r : StatusResponse)
  | online (r : BedrockStatusResponse)
  deriving DecidableEq, Repr

/-- Base record carried by either variant of a Java fetch result. -/
def JavaFetchResult.status : JavaFetchResult → StatusResponse
  | .offline r => r
  | .online r => r.Status

/-- Whether a Java fetch result is the full online record. -/
def JavaFetchResult.isOnline : JavaFetchResult → Bool
  | .offline _ => false
  | .online _ => true

/-- Base record carried by either variant of a Bedrock fetch result. -/
def BedrockFetchResult.status : BedrockFetchResult → StatusResponse
  | .offline r => r
  | .online r => r.Status

/-- Version container of a Bedrock fetch result (null on the offline variant). -/
def BedrockFetchResult.version : BedrockFetchResult → Option BedrockVersion
  | .offline _ => none
  | .online r => r.Version

/-- Players container of a Bedrock fetch result (null on the offline variant). -/
def BedrockFetchResult.players : BedrockFetchResult → Option BedrockPlayers
  | .offline _ => none
  | .online r => r.Players

/-- FetchJavaStatus of status.go.  queryModern is the outcome of
mcutil.Status(host, port), queryLegacy that of mcutil.StatusLegacy(host,
port), isBlocked is IsBlockedAddress. -/
def FetchJavaStatus (isBlocked : String → Bool)
    (queryModern : Except Unit RawJavaStatus)
    (queryLegacy : Except Unit RawLegacyStatus)
    (host : String) (port : Nat) : JavaFetchResult :=
  match queryModern with
  | .error _ =>
    match queryLegacy with
    | .error _ =>
      .offline
        { Online := false
          Host := host
          Port := port
          EULABlocked := isBlocked host }
    | .ok statusLegacy =>
      .online
        { Status :=
            { Online := true
              Host := host
              Port := port
              EULABlocked := isBlocked host }
          Version :=
            match statusLegacy.Version with
            | none => none
            | some v =>
              some
                { NameRaw := v.NameRaw
                  NameClean := v.NameClean
                  NameHTML := v.NameHTML
                  Protocol := v.Protocol }
          Players :=
            { Online := statusLegacy.Players.Online
              Max := statusLegacy.Players.Max
              List := [] }
          MOTD :=
            { Raw := statusLegacy.MOTD.Raw
              Clean := statusLegacy.MOTD.Clean
              HTML := statusLegacy.MOTD.HTML }
          Icon := none
          Mods := [] }
  | .ok status =>
    .online
      { Status :=
          { Online := true
            Host := host
            Port := port
            EULABlocked := isBlocked host }
        Version :=
          some
            { NameRaw := status.Version.NameRaw
              NameClean := status.Version.NameClean
              NameHTML := status.Version.NameHTML
              Protocol := status.Version.Protocol }
        Players :=
          { Online := status.Players.Online
            Max := status.Players.Max
            List :=
              match status.Players.Sample with
              | none => []
              | some sample =>
                sample.map fun p =>
                  { UUID := p.ID
                    NameRaw := p.NameRaw
                    NameClean := p.NameClean
                    NameHTML := p.NameHTML } }
        MOTD :=
          { Raw := status.MOTD.Raw
            Clean := status.MOTD.Clean
            HTML := status.MOTD.HTML }
        Icon := status.Favicon
        Mods :=
          match status.ModInfo with
          | none => []
          | some modInfo =>
            modInfo.Mods.map fun m =>
              { Name := m.ID
                Version := m.Version } }

/-- FetchBedrockStatus of status.go.  query is the outcome of
mcutil.StatusBedrock(host, port); the sequential nil-checked field
assignments of the Go code become a chain of record updates. -/
def FetchBedrockStatus (isBlocked : String → Bool)
    (query : Except Unit RawBedrockStatus)
    (host : String) (port : Nat) : BedrockFetchResult :=
  match query with
  | .error _ =>
    .offline
      { Online := false
        Host := host
        Port := port
        EULABlocked := isBlocked host }
  | .ok status =>
    let response : BedrockStatusResponse :=
      { Status :=
          { Online := true
            Host := host
            Port := port
            EULABlocked := isBlocked host }
        Version := none
        Players := none
        MOTD := none
        Gamemode := status.Gamemode
        ServerID := status.ServerID
        Edition := status.Edition }
    let response :=
      if status.Version.isSome then
        let base := response.Version.getD { Name := none, Protocol := none }
        { response with Version := some { base with Name := status.Version } }
      else response
    let response :=
      if status.ProtocolVersion.isSome then
        let base := response.Version.getD { Name := none, Protocol := none }
        { response with Version := some { base with Protocol := status.ProtocolVersion } }
      else response
    let response :=
      if status.OnlinePlayers.isSome then
        let base := response.Players.getD { Online := none, Max := none }
        { response with Players := some { base with Online := status.OnlinePlayers } }
      else response
    let response :=
      if status.MaxPlayers.isSome then
        let base := response.Players.getD { Online := none, Max := none }
        { response with Players := some { base with Max := status.MaxPlayers } }
      else response
    let response :=
      match status.MOTD with
      | none => response
      | some m =>
        { response with MOTD := some { Raw := m.Raw, Clean := m.Clean, HTML := m.HTML } }
    .online response

/-- Cache key of GetJavaStatus: fmt.Sprintf of "java:%s-%d" over host and port. -/
def javaCacheKey (host : String) (port : Nat) : String :=
  "java:" ++ host ++ "-" ++ toString port

/-- Cache key of GetBedrockStatus: fmt.Sprintf of "bedrock:%s-%d". -/
def bedrockCacheKey (host : String) (port : Nat) : String :=
  "bedrock:" ++ host ++ "-" ++ toString port

/-- Cache key of GetServerIcon: fmt.Sprintf of "icon:%s-%d". -/
def iconCacheKey (host : String) (port : Nat) : String :=
  "icon:" ++ host ++ "-" ++ toString port

/-- GetJavaStatus of status.go.  getCacheString models r.GetCacheString
(hit flag, value, remaining ttl, error); setResult models the error
behaviour of r.Set; marshal models json.Marshal on the fetch result;
javaCacheDuration is config.Cache.JavaCacheDuration.  Returns the Go
triple (string, nilable duration, nilable error) paired with the list of
cache writes performed. -/
def GetJavaStatus
    (getCacheString : String → Bool × String × Int × Option String)
    (setResult : String → String → Int → Option String)
    (marshal : JavaFetchResult → Except String String)
    (javaCacheDuration : Int)
    (isBlocked : String → Bool)
    (queryModern : Except Unit RawJavaStatus)
    (queryLegacy : Except Unit RawLegacyStatus)
    (host : String) (port : Nat) :
    (String × Option Int × Option String) × List (String × String × Int) :=
  let cacheKey := javaCacheKey host port
  match getCacheString cacheKey with
  | (found, value, ttl, err) =>
    if found then ((value, some ttl, err), [])
    else
      match marshal (FetchJavaStatus isBlocked queryModern queryLegacy host port) with
      | .error e => (("", none, some e), [])
      | .ok response =>
        match setResult cacheKey response javaCacheDuration with
        | some e => (("", none, some e), [(cacheKey, response, javaCacheDuration)])
        | none => ((response, none, none), [(cacheKey, response, javaCacheDuration)])

/-- GetBedrockStatus of status.go; same shape as GetJavaStatus with the
bedrock key, the single Bedrock query and config.Cache.BedrockCacheDuration. -/
def GetBedrockStatus
    (getCacheString : String → Bool × String × Int × Option String)
    (setResult : String → String → Int → Option String)
    (marshal : BedrockFetchResult → Except String String)
    (bedrockCacheDuration : Int)
    (isBlocked : String → Bool)
    (query : Except Unit RawBedrockStatus)
    (host : String) (port : Nat) :
    (String × Option Int × Option String) × List (String × String × Int) :=
  let cacheKey := bedrockCacheKey host port
  match getCacheString cacheKey with
  | (found, value, ttl, err) =>
    if found then ((value, some ttl, err), [])
    else
      match marshal (FetchBedrockStatus isBlocked query host port) with
      | .error e => (("", none, some e), [])
      | .ok response =>
        match setResult cacheKey response bedrockCacheDuration with
        | some e => (("", none, some e), [(cacheKey, response, bedrockCacheDuration)])
        | none => ((response, none, none), [(cacheKey, response, bedrockCacheDuration)])

/-- The data-URI header GetServerIcon expects on a favicon. -/
def faviconDataHeader : String := "data:image/png;base64,"

/-- strings.HasPrefix of the Go standard library: whether p is a leading
segment of s. -/
def goHasPrefix (s p : String) : Bool := p.data.isPrefixOf s.data

/-- GetServerIcon of status.go.  getCacheBytes models r.GetCacheBytes,
decode64 models base64.StdEncoding.DecodeString, defaultIcon is the
defaultIconBytes constant, iconCacheDuration is
config.Cache.IconCacheDuration and queryModern the outcome of
mcutil.Status(host, port).  The first component of the result is the Go
byte slice (none is a nil slice), then the nilable duration and error;
the second component lists the cache writes performed. -/
def GetServerIcon
    (getCacheBytes : String → Bool × List Nat × Int × Option String)
    (setResult : String → List Nat → Int → Option String)
    (decode64 : String → Except String (List Nat))
    (defaultIcon : List Nat)
    (iconCacheDuration : Int)
    (queryModern : Except Unit RawJavaStatus)
    (host : String) (port : Nat) :
    (Option (List Nat) × Option Int × Option String) × List (String × List Nat × Int) :=
  let cacheKey := iconCacheKey host port
  match getCacheBytes cacheKey with
  | (found, value, ttl, err) =>
    if found then ((some value, some ttl, err), [])
    else
      let icon := defaultIcon
      let step : Except String (List Nat) :=
        match queryModern with
        | .error _ => .ok icon
        | .ok status =>
          match status.Favicon with
          | none => .ok icon
          | some fav =>
            if goHasPrefix fav faviconDataHeader then
              match decode64 (fav.drop faviconDataHeader.length) with
              | .error e => .error e
              | .ok data => .ok data
            else .ok icon
      match step with
      | .error e => ((none, none, some e), [])
      | .ok icon =>
        match setResult cacheKey icon iconCacheDuration with
        | some e => ((none, none, some e), [(cacheKey, icon, iconCacheDuration)])
        | none => ((some icon, none, none), [(cacheKey, icon, iconCacheDuration)])

/-- A cache-read stub that always reports a miss with no error (strings). -/
def noHitString : String → Bool × String × Int × Option String :=
  fun _ => (false, "", 0, none)

/-- A cache-read stub that always reports a miss with no error (bytes). -/
def noHitBytes : String → Bool × List Nat × Int × Option String :=
  fun _ => (false, [], 0, none)

/-- A store-set stub that always succeeds (strings). -/
def setOkString : String → String → Int → Option String :=
  fun _ _ _ => none

/-- A store-set stub that always succeeds (bytes). -/
def setOkBytes : String → List Nat → Int → Option String :=
  fun _ _ _ => none

/-- A marshal stub for Java fetch results that always succeeds. -/
def marshalOkJava : JavaFetchResult → Except String String :=
  fun _ => Except.ok "serializedJava"

/-- A marshal stub for Bedrock fetch results that always succeeds. -/
def marshalOkBedrock : BedrockFetchResult → Except String String :=
  fun _ => Except.ok "serializedBedrock"

/-- The base record of a successful Bedrock fetch is the online record with
the echoed host and port and the blocklist lookup, whatever fields the
upstream record carries. -/
theorem bedrockStatus_ok (isBlocked : String → Bool) (st : RawBedrockStatus)
    (host : String) (port : Nat) :
    (FetchBedrockStatus isBlocked (Except.ok st) host port).status
      = { Online := true, Host := host, Port := port, EULABlocked := isBlocked host } := by
  rcases st with ⟨sid, ed, motd, pv, ver, gm, op, mp⟩
  cases ver <;> cases pv <;> cases op <;> cases mp <;> cases motd <;> rfl

/-- C2: for every second-family (Bedrock) upstream record, the output
version container is non-null exactly when name or protocol is present
upstream, in which case each present field is copied and each absent one
stays null; independently the players container is non-null exactly when
online or max is present upstream, with the same per-field rule. -/
theorem c2_bedrock_lazy_containers (isBlocked : String → Bool)
    (st : RawBedrockStatus) (host : String) (port : Nat) :
    (FetchBedrockStatus isBlocked (Except.ok st) host port).version
      = (if st.Version.isSome || st.ProtocolVersion.isSome
          then some { Name := st.Version, Protocol := st.ProtocolVersion }
          else none)
    ∧ (FetchBedrockStatus isBlocked (Except.ok st) host port).players
      = (if st.OnlinePlayers.isSome || st.MaxPlayers.isSome
          then some { Online := st.OnlinePlayers, Max := st.MaxPlayers }
          else none) := by
  rcases st with ⟨sid, ed, motd, pv, ver, gm, op, mp⟩
  cases ver <;> cases pv <;> cases op <;> cases mp <;> cases motd <;>
    exact ⟨rfl, rfl⟩

/-- C3 counterexample: the claim names the namespaces primary and second,
but the status operations build their keys with the namespaces java and
bedrock; at host example.com and port 25565 the primary-family key the
operation writes under differs from the claimed one. -/
theorem c3_counterexample :
    ((GetJavaStatus noHitString setOkString marshalOkJava 0 (fun _ => false)
        (Except.error ()) (Except.error ()) "example.com" 25565).2.map Prod.fst
      = ["java:example.com-25565"])
    ∧ ¬ ((GetJavaStatus noHitString setOkString marshalOkJava 0 (fun _ => false)
        (Except.error ()) (Except.error ()) "example.com" 25565).2.map Prod.fst
      = ["primary:example.com-25565"])
    ∧ ((GetBedrockStatus noHitString setOkString marshalOkBedrock 0 (fun _ => false)
        (Except.error ()) "example.com" 25565).2.map Prod.fst
      = ["bedrock:example.com-25565"]) := by
  refine ⟨rfl, by decide, rfl⟩

/-- C3 amended: the cache key of each resolution operation is the
namespace, a colon, the host verbatim, a dash and the decimal port, with
namespace java for the primary-family status operation, bedrock for the
second-family status operation and icon for icon resolution; on a miss
with a successful serialization each operation stores under exactly that
key. -/
theorem c3_cache_key_format (host : String) (port : Nat) :
    javaCacheKey host port = "java:" ++ host ++ "-" ++ toString port
    ∧ bedrockCacheKey host port = "bedrock:" ++ host ++ "-" ++ toString port
    ∧ iconCacheKey host port = "icon:" ++ host ++ "-" ++ toString port
    ∧ (∀ gc set mar dur isB qm ql s,
        (gc (javaCacheKey host port)).1 = false →
        mar (FetchJavaStatus isB qm ql host port) = Except.ok s →
        (GetJavaStatus gc set mar dur isB qm ql host port).2.map Prod.fst
          = ["java:" ++ host ++ "-" ++ toString port])
    ∧ (∀ gc set mar dur isB qb s,
        (gc (bedrockCacheKey host port)).1 = false →
        mar (FetchBedrockStatus isB qb host port) = Except.ok s →
        (GetBedrockStatus gc set mar dur isB qb host port).2.map Prod.fst
          = ["bedrock:" ++ host ++ "-" ++ toString port])
    ∧ (∀ gb set dec dflt dur,
        (gb (iconCacheKey host port)).1 = false →
        (GetServerIcon gb set dec dflt dur (Except.error ()) host port).2.map Prod.fst
          = ["icon:" ++ host ++ "-" ++ toString port]) := by
  refine ⟨rfl, rfl, rfl, ?_, ?_, ?_⟩
  · intro gc set mar dur isB qm ql s hmiss hmar
    rcases hk : gc (javaCacheKey host port) with ⟨found, v, t, er⟩
    rw [hk] at hmiss
    simp only at hmiss
    subst hmiss
    simp [GetJavaStatus, hk, hmar]
    cases hs : set (javaCacheKey host port) s dur <;> simp [javaCacheKey]
  · intro gc set mar dur isB qb s hmiss hmar
    rcases hk : gc (bedrockCacheKey host port) with ⟨found, v, t, er⟩
    rw [hk] at hmiss
    simp only at hmiss
    subst hmiss
    simp [GetBedrockStatus, hk, hmar]
    cases hs : set (bedrockCacheKey host port) s dur <;> simp [bedrockCacheKey]
  · intro gb set dec dflt dur hmiss
    rcases hk : gb (iconCacheKey host port) with ⟨found, v, t, er⟩
    rw [hk] at hmiss
    simp only at hmiss
    subst hmiss
    simp [GetServerIcon, hk]
    cases hs : set (iconCacheKey host port) dflt dur <;> simp [iconCacheKey]

/-- C3 witness: at a concrete host and port with a concrete missing cache
and succeeding marshal, the keys and the stored key are as stated. -/
theorem c3_cache_key_format_witness :
    (GetJavaStatus noHitString setOkString marshalOkJava 0 (fun _ => false)
        (Except.error ()) (Except.error ()) "Example.COM" 7).2.map Prod.fst
      = ["java:" ++ "Example.COM" ++ "-" ++ toString 7] := by
  exact (c3_cache_key_format "Example.COM" 7).2.2.2.1 noHitString setOkString
    marshalOkJava 0 (fun _ => false) (Except.error ()) (Except.error ())
    "serializedJava" rfl rfl

/-- C7: a record produced on the legacy-fallback path has a null icon, an
empty mods list and an empty player list regardless of the legacy record,
and its version is present exactly when the legacy record carried one, the
raw, clean, html and protocol values copied through. -/
theorem c7_legacy_normalization (isBlocked : String → Bool)
    (leg : RawLegacyStatus) (host : String) (port : Nat) :
    ∃ r, FetchJavaStatus isBlocked (Except.error ()) (Except.ok leg) host port
          = JavaFetchResult.online r
      ∧ r.Icon = none
      ∧ r.Mods = []
      ∧ r.Players.List = []
      ∧ r.Version = leg.Version.map (fun v =>
          { NameRaw := v.NameRaw, NameClean := v.NameClean
            NameHTML := v.NameHTML, Protocol := v.Protocol }) := by
  rcases leg with ⟨ver, players, motd⟩
  cases ver <;> exact ⟨_, rfl, rfl, rfl, rfl, rfl⟩

/-- C9: every record either family produces, on the modern, legacy and
offline paths alike, echoes the requested host and port unchanged and
carries the blocklist lookup of the host as its eula-blocked flag,
independently of query success. -/
theorem c9_eula_host_port_invariant (isBlocked : String → Bool)
    (qm : Except Unit RawJavaStatus) (ql : Except Unit RawLegacyStatus)
    (qb : Except Unit RawBedrockStatus) (host : String) (port : Nat) :
    (FetchJavaStatus isBlocked qm ql host port).status.EULABlocked = isBlocked host
    ∧ (FetchJavaStatus isBlocked qm ql host port).status.Host = host
    ∧ (FetchJavaStatus isBlocked qm ql host port).status.Port = port
    ∧ (FetchBedrockStatus isBlocked qb host port).status.EULABlocked = isBlocked host
    ∧ (FetchBedrockStatus isBlocked qb host port).status.Host = host
    ∧ (FetchBedrockStatus isBlocked qb host port).status.Port = port := by
  have hb : (FetchBedrockStatus isBlocked qb host port).status.EULABlocked = isBlocked host
      ∧ (FetchBedrockStatus isBlocked qb host port).status.Host = host
      ∧ (FetchBedrockStatus isBlocked qb host port).status.Port = port := by
    cases qb with
    | error e => exact ⟨rfl, rfl, rfl⟩
    | ok st =>
      rw [bedrockStatus_ok]
      exact ⟨rfl, rfl, rfl⟩
  refine ⟨?_, ?_, ?_, hb.1, hb.2.1, hb.2.2⟩ <;>
    cases qm <;> cases ql <;> rfl

/-- A concrete upstream modern-query record whose favicon has the expected
header followed by a payload the decoder rejects. -/
def badFaviconStatus : RawJavaStatus :=
  { Version := { NameRaw := "", NameClean := "", NameHTML := "", Protocol := 0 }
    Players := { Online := 0, Max := 0, Sample := none }
    MOTD := { Raw := "", Clean := "", HTML := "" }
    Favicon := some "data:image/png;base64,!!"
    ModInfo := none }

/-- C1: primary-family resolution on a miss tries the modern query (the
legacy outcome is then irrelevant), falls back to the legacy query on
failure, and when both fail returns exactly the offline base record with
the echoed host and port and the blocklist flag; with a working store and
serializer, no query outcome ever makes the operation return an error. -/
theorem c1_java_fallback_chain (isBlocked : String → Bool) (host : String) (port : Nat) :
    (∀ st ql ql', FetchJavaStatus isBlocked (Except.ok st) ql host port
        = FetchJavaStatus isBlocked (Except.ok st) ql' host port)
    ∧ (∀ st ql, (FetchJavaStatus isBlocked (Except.ok st) ql host port).isOnline = true)
    ∧ (∀ leg, (FetchJavaStatus isBlocked (Except.error ()) (Except.ok leg) host port).isOnline
        = true)
    ∧ FetchJavaStatus isBlocked (Except.error ()) (Except.error ()) host port
        = JavaFetchResult.offline
            { Online := false, Host := host, Port := port, EULABlocked := isBlocked host }
    ∧ (∀ gc set mar dur qm ql,
        (gc (javaCacheKey host port)).1 = false →
        (∀ x, ∃ s, mar x = Except.ok s) →
        (∀ k v t, set k v t = none) →
        (GetJavaStatus gc set mar dur isBlocked qm ql host port).1.2.2 = none) := by
  refine ⟨fun st ql ql' => rfl, fun st ql => rfl, fun leg => rfl, rfl, ?_⟩
  intro gc set mar dur qm ql hmiss hmar hset
  obtain ⟨s, hs⟩ := hmar (FetchJavaStatus isBlocked qm ql host port)
  rcases hk : gc (javaCacheKey host port) with ⟨found, v, t, er⟩
  rw [hk] at hmiss
  simp only at hmiss
  subst hmiss
  simp [GetJavaStatus, hk, hs, hset]

/-- C1 witness: with a concrete missing cache, working store and
serializer, and both queries failing, the operation returns no error. -/
theorem c1_java_fallback_chain_witness :
    (GetJavaStatus noHitString setOkString marshalOkJava 0 (fun _ => false)
        (Except.error ()) (Except.error ()) "example.com" 25565).1.2.2 = none := by
  exact (c1_java_fallback_chain (fun _ => false) "example.com" 25565).2.2.2.2
    noHitString setOkString marshalOkJava 0 (Except.error ()) (Except.error ())
    rfl (fun x => ⟨"serializedJava", rfl⟩) (fun k v t => rfl)

/-- C4: on a miss, a serialization error, or a store-set error after a
successful serialization, makes either status operation return that very
error with an empty string and no ttl. -/
theorem c4_store_errors_surfaced (host : String) (port : Nat) :
    (∀ gc set mar dur isB qm ql e,
        (gc (javaCacheKey host port)).1 = false →
        mar (FetchJavaStatus isB qm ql host port) = Except.error e →
        (GetJavaStatus gc set mar dur isB qm ql host port).1 = ("", none, some e))
    ∧ (∀ gc set mar dur isB qm ql s e,
        (gc (javaCacheKey host port)).1 = false →
        mar (FetchJavaStatus isB qm ql host port) = Except.ok s →
        set (javaCacheKey host port) s dur = some e →
        (GetJavaStatus gc set mar dur isB qm ql host port).1 = ("", none, some e))
    ∧ (∀ gc set mar dur isB qb e,
        (gc (bedrockCacheKey host port)).1 = false →
        mar (FetchBedrockStatus isB qb host port) = Except.error e →
        (GetBedrockStatus gc set mar dur isB qb host port).1 = ("", none, some e))
    ∧ (∀ gc set mar dur isB qb s e,
        (gc (bedrockCacheKey host port)).1 = false →
        mar (FetchBedrockStatus isB qb host port) = Except.ok s →
        set (bedrockCacheKey host port) s dur = some e →
        (GetBedrockStatus gc set mar dur isB qb host port).1 = ("", none, some e)) := by
  refine ⟨?_, ?_, ?_, ?_⟩
  · intro gc set mar dur isB qm ql e hmiss hmar
    rcases hk : gc (javaCacheKey host port) with ⟨found, v, t, er⟩
    rw [hk] at hmiss
    simp only at hmiss
    subst hmiss
    simp [GetJavaStatus, hk, hmar]
  · intro gc set mar dur isB qm ql s e hmiss hmar hset
    rcases hk : gc (javaCacheKey host port) with ⟨found, v, t, er⟩
    rw [hk] at hmiss
    simp only at hmiss
    subst hmiss
    simp [GetJavaStatus, hk, hmar, hset]
  · intro gc set mar dur isB qb e hmiss hmar
    rcases hk : gc (bedrockCacheKey host port) with ⟨found, v, t, er⟩
    rw [hk] at hmiss
    simp only at hmiss
    subst hmiss
    simp [GetBedrockStatus, hk, hmar]
  · intro gc set mar dur isB qb s e hmiss hmar hset
    rcases hk : gc (bedrockCacheKey host port) with ⟨found, v, t, er⟩
    rw [hk] at hmiss
    simp only at hmiss
    subst hmiss
    simp [GetBedrockStatus, hk, hmar, hset]

/-- C4 witness: at a concrete call whose serializer fails, the operation
returns that error with an empty result. -/
theorem c4_store_errors_surfaced_witness :
    (GetJavaStatus noHitString setOkString (fun _ => Except.error "marshal failure") 0
        (fun _ => false) (Except.error ()) (Except.error ()) "example.com" 25565).1
      = ("", none, some "marshal failure") := by
  exact (c4_store_errors_surfaced "example.com" 25565).1 noHitString setOkString
    (fun _ => Except.error "marshal failure") 0 (fun _ => false)
    (Except.error ()) (Except.error ()) "marshal failure" rfl rfl

/-- C5 counterexample: at a concrete call whose cache read reports a miss
together with a non-nil read error, the operation does not surface the
read error: it proceeds to a fresh computation and returns it with no
error at all. -/
theorem c5_counterexample :
    (GetJavaStatus (fun _ => (false, "", 0, some "read failure")) setOkString
        marshalOkJava 0 (fun _ => false) (Except.error ()) (Except.error ())
        "example.com" 25565).1
      = ("serializedJava", none, none)
    ∧ (GetJavaStatus (fun _ => (false, "", 0, some "read failure")) setOkString
        marshalOkJava 0 (fun _ => false) (Except.error ()) (Except.error ())
        "example.com" 25565).1.2.2 ≠ some "read failure" := by
  exact ⟨rfl, by decide⟩

/-- C5 amended: a read error accompanying a miss is ignored — the outcome
is identical to an error-free miss, the operation proceeding to a fresh
upstream query — while a read error accompanying a hit is passed to the
caller alongside the cached value. -/
theorem c5_read_error_ignored_on_miss (host : String) (port : Nat) :
    (∀ gc gc' set mar dur isB qm ql v t e v' t' e',
        gc (javaCacheKey host port) = (false, v, t, e) →
        gc' (javaCacheKey host port) = (false, v', t', e') →
        GetJavaStatus gc set mar dur isB qm ql host port
          = GetJavaStatus gc' set mar dur isB qm ql host port)
    ∧ (∀ gc set mar dur isB qm ql v t e,
        gc (javaCacheKey host port) = (true, v, t, some e) →
        (GetJavaStatus gc set mar dur isB qm ql host port).1 = (v, some t, some e))
    ∧ (∀ gb gb' set dec dflt dur qm v t e v' t' e',
        gb (iconCacheKey host port) = (false, v, t, e) →
        gb' (iconCacheKey host port) = (false, v', t', e') →
        GetServerIcon gb set dec dflt dur qm host port
          = GetServerIcon gb' set dec dflt dur qm host port)
    ∧ (∀ gb set dec dflt dur qm v t e,
        gb (iconCacheKey host port) = (true, v, t, some e) →
        (GetServerIcon gb set dec dflt dur qm host port).1 = (some v, some t, some e)) := by
  refine ⟨?_, ?_, ?_, ?_⟩
  · intro gc gc' set mar dur isB qm ql v t e v' t' e' h h'
    simp [GetJavaStatus, h, h']
  · intro gc set mar dur isB qm ql v t e h
    simp [GetJavaStatus, h]
  · intro gb gb' set dec dflt dur qm v t e v' t' e' h h'
    simp [GetServerIcon, h, h']
  · intro gb set dec dflt dur qm v t e h
    simp [GetServerIcon, h]

/-- C5 amended witness: two concrete misses, one with a read error and one
without, produce the same outcome. -/
theorem c5_read_error_ignored_on_miss_witness :
    GetJavaStatus (fun _ => (false, "", 0, some "read failure")) setOkString
        marshalOkJava 0 (fun _ => false) (Except.error ()) (Except.error ())
        "example.com" 25565
      = GetJavaStatus noHitString setOkString marshalOkJava 0 (fun _ => false)
        (Except.error ()) (Except.error ()) "example.com" 25565 := by
  exact (c5_read_error_ignored_on_miss "example.com" 25565).1
    (fun _ => (false, "", 0, some "read failure")) noHitString setOkString
    marshalOkJava 0 (fun _ => false) (Except.error ()) (Except.error ())
    "" 0 (some "read failure") "" 0 none rfl rfl

/-- C6: on an icon miss with a working store, a failed modern query, an
absent favicon or a favicon without the expected data-URI header all yield
the built-in default bytes with no error; a favicon with the header whose
remainder the decoder rejects yields that decode error; a favicon whose
remainder decodes yields the decoded bytes. -/
theorem c6_icon_decode_policy (host : String) (port : Nat)
    (gb : String → Bool × List Nat × Int × Option String)
    (set : String → List Nat → Int → Option String)
    (dec : String → Except String (List Nat))
    (dflt : List Nat) (dur : Int)
    (hmiss : (gb (iconCacheKey host port)).1 = false)
    (hset : ∀ k v t, set k v t = none) :
    ((GetServerIcon gb set dec dflt dur (Except.error ()) host port).1
        = (some dflt, none, none))
    ∧ (∀ st, st.Favicon = none →
        (GetServerIcon gb set dec dflt dur (Except.ok st) host port).1
          = (some dflt, none, none))
    ∧ (∀ st fav, st.Favicon = some fav →
        goHasPrefix fav faviconDataHeader = false →
        (GetServerIcon gb set dec dflt dur (Except.ok st) host port).1
          = (some dflt, none, none))
    ∧ (∀ st fav e, st.Favicon = some fav →
        goHasPrefix fav faviconDataHeader = true →
        dec (fav.drop faviconDataHeader.length) = Except.error e →
        (GetServerIcon gb set dec dflt dur (Except.ok st) host port).1
          = (none, none, some e))
    ∧ (∀ st fav d, st.Favicon = some fav →
        goHasPrefix fav faviconDataHeader = true →
        dec (fav.drop faviconDataHeader.length) = Except.ok d →
        (GetServerIcon gb set dec dflt dur (Except.ok st) host port).1
          = (some d, none, none)) := by
  rcases hk : gb (iconCacheKey host port) with ⟨found, v, t, er⟩
  rw [hk] at hmiss
  simp only at hmiss
  subst hmiss
  refine ⟨?_, ?_, ?_, ?_, ?_⟩
  · simp [GetServerIcon, hk, hset]
  · intro st hfav
    simp [GetServerIcon, hk, hfav, hset]
  · intro st fav hfav hdr
    simp [GetServerIcon, hk, hfav, hdr, hset]
  · intro st fav e hfav hdr hdec
    simp [GetServerIcon, hk, hfav, hdr, hdec]
  · intro st fav d hfav hdr hdec
    simp [GetServerIcon, hk, hfav, hdr, hdec, hset]

set_option maxRecDepth 10000 in
/-- C6 witness: a concrete favicon with the expected header and a payload
the decoder rejects makes the concrete call fail with that decode error. -/
theorem c6_icon_decode_policy_witness :
    (GetServerIcon noHitBytes setOkBytes (fun _ => Except.error "bad base64") [7] 0
        (Except.ok badFaviconStatus) "example.com" 25565).1
      = (none, none, some "bad base64") := by
  exact (c6_icon_decode_policy "example.com" 25565 noHitBytes setOkBytes
      (fun _ => Except.error "bad base64") [7] 0 rfl (fun k v t => rfl)).2.2.2.1
    badFaviconStatus "data:image/png;base64,!!" "bad base64" rfl (by decide) rfl

/-- C8: on a hit every operation returns the cached value verbatim with a
non-nil remaining ttl, independently of the query outcomes; on a miss with
a successful serialization and store, the status operations return the
just-stored serialized value with a nil ttl, and icon resolution returns
just-stored bytes with a nil ttl. -/
theorem c8_hit_vs_fresh (host : String) (port : Nat) :
    (∀ gc set mar dur isB v t e qm qm' ql ql',
        gc (javaCacheKey host port) = (true, v, t, e) →
        (GetJavaStatus gc set mar dur isB qm ql host port).1 = (v, some t, e)
        ∧ GetJavaStatus gc set mar dur isB qm ql host port
            = GetJavaStatus gc set mar dur isB qm' ql' host port)
    ∧ (∀ gc set mar dur isB s qm ql,
        (gc (javaCacheKey host port)).1 = false →
        mar (FetchJavaStatus isB qm ql host port) = Except.ok s →
        set (javaCacheKey host port) s dur = none →
        (GetJavaStatus gc set mar dur isB qm ql host port).1 = (s, none, none)
        ∧ (GetJavaStatus gc set mar dur isB qm ql host port).2
            = [(javaCacheKey host port, s, dur)])
    ∧ (∀ gc set mar dur isB v t e qb qb',
        gc (bedrockCacheKey host port) = (true, v, t, e) →
        (GetBedrockStatus gc set mar dur isB qb host port).1 = (v, some t, e)
        ∧ GetBedrockStatus gc set mar dur isB qb host port
            = GetBedrockStatus gc set mar dur isB qb' host port)
    ∧ (∀ gc set mar dur isB s qb,
        (gc (bedrockCacheKey host port)).1 = false →
        mar (FetchBedrockStatus isB qb host port) = Except.ok s →
        set (bedrockCacheKey host port) s dur = none →
        (GetBedrockStatus gc set mar dur isB qb host port).1 = (s, none, none)
        ∧ (GetBedrockStatus gc set mar dur isB qb host port).2
            = [(bedrockCacheKey host port, s, dur)])
    ∧ (∀ gb set dec dflt dur v t e qm qm',
        gb (iconCacheKey host port) = (true, v, t, e) →
        (GetServerIcon gb set dec dflt dur qm host port).1 = (some v, some t, e)
        ∧ GetServerIcon gb set dec dflt dur qm host port
            = GetServerIcon gb set dec dflt dur qm' host port)
    ∧ (∀ gb set dec dflt dur qm,
        (gb (iconCacheKey host port)).1 = false →
        (∀ str, ∃ d, dec str = Except.ok d) →
        (∀ k v t, set k v t = none) →
        ∃ b, (GetServerIcon gb set dec dflt dur qm host port).1 = (some b, none, none)
          ∧ (GetServerIcon gb set dec dflt dur qm host port).2
              = [(iconCacheKey host port, b, dur)]) := by
  refine ⟨?_, ?_, ?_, ?_, ?_, ?_⟩
  · intro gc set mar dur isB v t e qm qm' ql ql' h
    exact ⟨by simp [GetJavaStatus, h], by simp [GetJavaStatus, h]⟩
  · intro gc set mar dur isB s qm ql hmiss hmar hset
    rcases hk : gc (javaCacheKey host port) with ⟨found, v, t, er⟩
    rw [hk] at hmiss
    simp only at hmiss
    subst hmiss
    exact ⟨by simp [GetJavaStatus, hk, hmar, hset], by simp [GetJavaStatus, hk, hmar, hset]⟩
  · intro gc set mar dur isB v t e qb qb' h
    exact ⟨by simp [GetBedrockStatus, h], by simp [GetBedrockStatus, h]⟩
  · intro gc set mar dur isB s qb hmiss hmar hset
    rcases hk : gc (bedrockCacheKey host port) with ⟨found, v, t, er⟩
    rw [hk] at hmiss
    simp only at hmiss
    subst hmiss
    exact ⟨by simp [GetBedrockStatus, hk, hmar, hset],
      by simp [GetBedrockStatus, hk, hmar, hset]⟩
  · intro gb set dec dflt dur v t e qm qm' h
    exact ⟨by simp [GetServerIcon, h], by simp [GetServerIcon, h]⟩
  · intro gb set dec dflt dur qm hmiss hdec hset
    rcases hk : gb (iconCacheKey host port) with ⟨found, v, t, er⟩
    rw [hk] at hmiss
    simp only at hmiss
    subst hmiss
    cases qm with
    | error u => exact ⟨dflt, by simp [GetServerIcon, hk, hset], by simp [GetServerIcon, hk, hset]⟩
    | ok st =>
      cases hfav : st.Favicon with
      | none =>
        exact ⟨dflt, by simp [GetServerIcon, hk, hfav, hset],
          by simp [GetServerIcon, hk, hfav, hset]⟩
      | some fav =>
        cases hdr : goHasPrefix fav faviconDataHeader with
        | false =>
          exact ⟨dflt, by simp [GetServerIcon, hk, hfav, hdr, hset],
            by simp [GetServerIcon, hk, hfav, hdr, hset]⟩
        | true =>
          obtain ⟨d, hd⟩ := hdec (fav.drop faviconDataHeader.length)
          exact ⟨d, by simp [GetServerIcon, hk, hfav, hdr, hd, hset],
            by simp [GetServerIcon, hk, hfav, hdr, hd, hset]⟩

/-- C8 witness: a concrete hit returns the cached value with its ttl, and
a concrete miss with a working serializer and store returns the fresh
serialized value with no ttl. -/
theorem c8_hit_vs_fresh_witness :
    (GetJavaStatus (fun _ => (true, "cached", 42, none)) setOkString marshalOkJava 0
        (fun _ => false) (Except.error ()) (Except.error ()) "example.com" 25565).1
      = ("cached", some 42, none)
    ∧ (GetJavaStatus noHitString setOkString marshalOkJava 0
        (fun _ => false) (Except.error ()) (Except.error ()) "example.com" 25565).1
      = ("serializedJava", none, none) := by
  refine ⟨((c8_hit_vs_fresh "example.com" 25565).1 (fun _ => (true, "cached", 42, none))
      setOkString marshalOkJava 0 (fun _ => false) "cached" 42 none
      (Except.error ()) (Except.error ()) (Except.error ()) (Except.error ()) rfl).1,
    ((c8_hit_vs_fresh "example.com" 25565).2.1 noHitString setOkString marshalOkJava 0
      (fun _ => false) "serializedJava" (Except.error ()) (Except.error ())
      rfl rfl rfl).1⟩

/-- C10: a favicon with the expected header whose remainder the decoder
rejects makes icon resolution return that error with nil bytes and
perform no cache write at all. -/
theorem c10_decode_error_no_write (host : String) (port : Nat)
    (gb : String → Bool × List Nat × Int × Option String)
    (set : String → List Nat → Int → Option String)
    (dec : String → Except String (List Nat))
    (dflt : List Nat) (dur : Int) (st : RawJavaStatus) (fav : String) (e : String)
    (hmiss : (gb (iconCacheKey host port)).1 = false)
    (hfav : st.Favicon = some fav)
    (hdr : goHasPrefix fav faviconDataHeader = true)
    (hdec : dec (fav.drop faviconDataHeader.length) = Except.error e) :
    GetServerIcon gb set dec dflt dur (Except.ok st) host port
      = ((none, none, some e), []) := by
  rcases hk : gb (iconCacheKey host port) with ⟨found, v, t, er⟩
  rw [hk] at hmiss
  simp only at hmiss
  subst hmiss
  simp [GetServerIcon, hk, hfav, hdr, hdec]

set_option maxRecDepth 10000 in
/-- C10 witness: the concrete undecodable favicon makes the concrete call
return the decode error with nil bytes and an empty write list. -/
theorem c10_decode_error_no_write_witness :
    GetServerIcon noHitBytes setOkBytes (fun _ => Except.error "bad base64") [7] 0
        (Except.ok badFaviconStatus) "example.com" 25565
      = ((none, none, some "bad base64"), []) := by
  exact c10_decode_error_no_write "example.com" 25565 noHitBytes setOkBytes
    (fun _ => Except.error "bad base64") [7] 0 badFaviconStatus
    "data:image/png;base64,!!" "bad base64" rfl rfl (by decide) rfl

end PingServer
